import Mathlib

/-!
Verification of the process-lifecycle manager of the gamex desktop launcher
(src/src-tauri/src/lib.rs) against its natural-language specification.

The Rust code is shallowly embedded as pure Lean functions.  Every
interaction with the operating system (spawning a process, killing it,
running an external utility, acquiring a mutex, logging, sleeping,
panicking) is recorded as an `Event` in an execution trace, and the
outcome of each fallible OS call is supplied as an explicit oracle
parameter, so that one Lean run of a function corresponds to one possible
real run of the Rust code.  Mutex acquisition always succeeds in the
model: in this program no thread can panic while holding either mutex
(the critical sections contain only pushes, takes, prints and kill calls,
and the bootstrap task's unwrap panics happen outside both locks), so the
std poisoning branch of every `if let Ok(..) = lock()` is unreachable.
-/

namespace Gamex

/-- Compilation target of the build (the Rust code branches on
cfg(target_os) / cfg(unix) / cfg(windows)). -/
inductive Target
  | windows
  | macos
  | linux
deriving DecidableEq, Repr

/-- macOS and Linux builds both satisfy cfg(unix) and share the chmod
pre-launch step; Windows does not. -/
def Target.isPosix : Target → Bool
  | .windows => false
  | .macos => true
  | .linux => true

/-- A game child process handle (std::process::Child); only its pid is
observable to the registry and the shutdown coordinator. -/
structure Child where
  pid : Nat
deriving DecidableEq, Repr

/-- The daemon child handle (tauri CommandChild); exposes its pid for
out-of-band signalling. -/
structure CommandChild where
  pid : Nat
deriving DecidableEq, Repr

/-- The two mutexes of ProcessManager. -/
inductive LockId
  | games
  | ipfs
deriving DecidableEq, Repr

/-- Outcome of running an external utility to completion (Command::output):
either the utility could not be executed at all (the Err case of output()),
or it ran and its exit status was a success or not. -/
inductive CmdOutcome
  | execFailed (msg : String)
  | ran (success : Bool)
deriving DecidableEq, Repr

/-- One observable step of the embedded program. -/
inductive Event
  | lockAcquire (l : LockId)
  | lockRelease (l : LockId)
  | log (msg : String)
  | killGame (pid : Nat) (err : Option String)
  | clearGames
  | externCmd (prog : String) (args : List String) (outcome : CmdOutcome)
  | sleepMs (ms : Nat)
  | forceKillDaemon (pid : Nat)
  | sidecarInvoke (args : List String) (env : List (String × String))
      (outcome : CmdOutcome)
  | spawnDaemon (args : List String) (env : List (String × String))
  | spawnGame (path : String)
  | taskPanic (msg : String)
deriving DecidableEq, Repr

/-- The shared registry: a list of game handles and an optional daemon
slot (struct ProcessManager, lib.rs lines 8-11, with the Mutex wrappers
made implicit as explained in the header). -/
structure ProcessManager where
  game_processes : List Child
  ipfs_process : Option CommandChild
deriving DecidableEq, Repr

/-- ProcessManager::new (lib.rs lines 14-19). -/
def ProcessManager.new : ProcessManager := ⟨[], none⟩

/-- ProcessManager::add_game_process (lib.rs lines 21-29): push the child
under the games lock and log the new count. -/
def ProcessManager.add_game_process (pm : ProcessManager) (child : Child) :
    ProcessManager × List Event :=
  (⟨pm.game_processes ++ [child], pm.ipfs_process⟩,
   [.lockAcquire .games,
    .log ("[ProcessManager] Added game process. Total tracked: "
      ++ toString (pm.game_processes.length + 1)),
    .lockRelease .games])

/-- ProcessManager::set_ipfs_process (lib.rs lines 31-36): overwrite the
daemon slot under the ipfs lock and log. -/
def ProcessManager.set_ipfs_process (pm : ProcessManager)
    (child : CommandChild) : ProcessManager × List Event :=
  (⟨pm.game_processes, some child⟩,
   [.lockAcquire .ipfs,
    .log "[ProcessManager] IPFS process tracked",
    .lockRelease .ipfs])

/-- The per-child body of the game-kill loop in kill_all (lib.rs lines
45-51): child.kill() with its outcome given by the oracle killErr (none
for Ok, some e for Err(e)), followed by the success or failure print.
The Nat argument is the position of the child in the list, used to index
the oracle. -/
def killGameEvents (killErr : Nat → Option String) :
    Nat → List Child → List Event
  | _, [] => []
  | i, c :: rest =>
    (match killErr i with
     | some e =>
       [.killGame c.pid (some e),
        .log ("[ProcessManager] Failed to kill game process: " ++ e)]
     | none =>
       [.killGame c.pid none,
        .log "[ProcessManager] Successfully killed game process"]) ++
    killGameEvents killErr (i + 1) rest

/-- ProcessManager::kill_all (lib.rs lines 38-111).  First critical
section: under the games lock, kill every game child in order (logging
each outcome) and clear the list.  Second critical section: under the
ipfs lock, take the daemon handle if present; on a unix target run the
external kill utility with SIGTERM on its pid, on windows run taskkill
with the tree flag (sleeping 500ms only when taskkill reports success);
in either case finish with an unconditional child.kill().  daemonCmd is
the oracle for the external utility invocation; killErr for the game
kills. -/
def ProcessManager.kill_all (pm : ProcessManager) (target : Target)
    (killErr : Nat → Option String) (daemonCmd : CmdOutcome) :
    ProcessManager × List Event :=
  let gameEvs : List Event :=
    [.lockAcquire .games,
     .log ("[ProcessManager] Killing "
       ++ toString pm.game_processes.length ++ " game processes")] ++
    killGameEvents killErr 0 pm.game_processes ++
    [.clearGames, .lockRelease .games]
  let daemonEvs : List Event :=
    [.lockAcquire .ipfs] ++
    (match pm.ipfs_process with
     | none => []
     | some child =>
       [.log "[ProcessManager] Shutting down IPFS daemon",
        .log ("[ProcessManager] IPFS daemon PID: " ++ toString child.pid)] ++
       (if target.isPosix then
          [.externCmd "kill" ["-TERM", toString child.pid] daemonCmd] ++
          (match daemonCmd with
           | .ran true =>
             [.log "[ProcessManager] Sent SIGTERM to IPFS daemon"]
           | .ran false =>
             [.log "[ProcessManager] Failed to send SIGTERM"]
           | .execFailed e =>
             [.log ("[ProcessManager] Failed to execute kill command: " ++ e)])
        else
          [.externCmd "taskkill" ["/PID", toString child.pid, "/T"] daemonCmd] ++
          (match daemonCmd with
           | .ran true =>
             [.log "[ProcessManager] Sent taskkill to IPFS daemon",
              .sleepMs 500]
           | .ran false =>
             [.log "[ProcessManager] Failed to taskkill"]
           | .execFailed e =>
             [.log ("[ProcessManager] Failed to execute taskkill: " ++ e)])) ++
       [.forceKillDaemon child.pid,
        .log "[ProcessManager] IPFS daemon cleanup completed"]) ++
    [.lockRelease .ipfs]
  (⟨[], none⟩, gameEvs ++ daemonEvs)

/-- execute_game (lib.rs lines 114-164).  chmodRes is the oracle for the
chmod invocation on posix targets (Command::output; its exit status is
ignored by the code, only an execution failure maps to an error);
spawnRes is the oracle for spawning the game itself (ok pid, or the Err
message).  Returns the command result, the updated registry and the
trace. -/
def execute_game (target : Target) (path : String) (chmodRes : CmdOutcome)
    (spawnRes : Except String Nat) (pm : ProcessManager) :
    Except String String × ProcessManager × List Event :=
  let header : List Event := [.log ("[Tauri] Executing game at path: " ++ path)]
  match target with
  | .windows =>
    match spawnRes with
    | .error e =>
      (.error ("Failed to execute game: " ++ e), pm, header ++ [.spawnGame path])
    | .ok pid =>
      let r := pm.add_game_process ⟨pid⟩
      (.ok ("Game launched: " ++ path), r.1, header ++ [.spawnGame path] ++ r.2)
  | _ =>
    let chmodEv : List Event := [.externCmd "chmod" ["+x", path] chmodRes]
    match chmodRes with
    | .execFailed e =>
      (.error ("Failed to set executable permission: " ++ e), pm,
       header ++ chmodEv)
    | .ran _ =>
      match spawnRes with
      | .error e =>
        (.error ("Failed to execute game: " ++ e), pm,
         header ++ chmodEv ++ [.spawnGame path])
      | .ok pid =>
        let r := pm.add_game_process ⟨pid⟩
        (.ok ("Game launched: " ++ path), r.1,
         header ++ chmodEv ++ [.spawnGame path] ++ r.2)

/-- Arguments of the first configuration sub-invocation: the allow-list
of HTTP origins (lib.rs line 201), verbatim. -/
def corsOriginArgs : List String :=
  ["config", "API.HTTPHeaders.Access-Control-Allow-Origin",
   "[\"http://localhost:3000\", \"http://localhost:1420\", \"tauri://localhost\", \"https://webui.ipfs.io\", \"http://127.0.0.1:5001\"]",
   "--json"]

/-- Arguments of the second configuration sub-invocation: the allow-list
of HTTP methods (lib.rs line 202), verbatim. -/
def corsMethodArgs : List String :=
  ["config", "API.HTTPHeaders.Access-Control-Allow-Methods",
   "[\"PUT\", \"POST\", \"GET\"]",
   "--json"]

/-- The ordered list of configuration sub-invocations of the daemon admin
interface (lib.rs lines 200-203). -/
def cors_commands : List (List String) :=
  [corsOriginArgs, corsMethodArgs]

/-- The loop over cors_commands (lib.rs lines 205-207).  Each iteration
runs the sidecar synchronously with the given environment and calls
unwrap() on the result: an execution failure panics the bootstrap task
and ends it (returning true); a run that completed has its exit status
discarded entirely, whatever it was.  The Nat argument indexes the
cfgOutcome oracle. -/
def runConfigsAux (env : List (String × String))
    (cfgOutcome : Nat → CmdOutcome) :
    Nat → List (List String) → List Event × Bool
  | _, [] => ([], false)
  | i, args :: rest =>
    match cfgOutcome i with
    | .execFailed e =>
      ([.sidecarInvoke args env (.execFailed e),
        .taskPanic ("called unwrap on an Err value: " ++ e)], true)
    | .ran b =>
      let r := runConfigsAux env cfgOutcome (i + 1) rest
      (.sidecarInvoke args env (.ran b) :: r.1, r.2)

/-- The daemon bootstrap task spawned from setup (lib.rs lines 181-225),
starting after the data-directory preparation (whose unwraps are modelled
as succeeding; the claims under verification begin at the environment
map).  Builds the environment mapping IPFS_PATH to the data directory,
runs the configuration loop, and, unless that loop panicked, spawns the
daemon sidecar with the same environment: on success the handle is stored
with set_ipfs_process, on failure the error is printed and the slot is
left alone. -/
def bootstrap (dataDir : String) (cfgOutcome : Nat → CmdOutcome)
    (spawnRes : Except String Nat) (pm : ProcessManager) :
    ProcessManager × List Event :=
  let env : List (String × String) := [("IPFS_PATH", dataDir)]
  let cfg := runConfigsAux env cfgOutcome 0 cors_commands
  if cfg.2 then (pm, cfg.1)
  else
    let spawnEvs : List Event :=
      [.log "[Tauri] Starting IPFS daemon...",
       .spawnDaemon ["daemon", "--init"] env]
    match spawnRes with
    | .ok pid =>
      let r := pm.set_ipfs_process ⟨pid⟩
      (r.1, cfg.1 ++ spawnEvs ++
        [.log "[Tauri] IPFS daemon spawned successfully!"] ++ r.2)
    | .error e =>
      (pm, cfg.1 ++ spawnEvs ++
        [.log ("[Tauri] Failed to spawn IPFS daemon: " ++ e)])

/-! Trace observers used by the claims. -/

/-- The event is the posix graceful-termination request (the external
kill utility). -/
def Event.isGracefulReq : Event → Bool
  | .externCmd "kill" _ _ => true
  | _ => false

/-- The event is the windows tree-kill request (taskkill). -/
def Event.isTreeKillReq : Event → Bool
  | .externCmd "taskkill" _ _ => true
  | _ => false

/-- The event is the direct forced termination of the daemon handle. -/
def Event.isForceKill : Event → Bool
  | .forceKillDaemon _ => true
  | _ => false

/-- The event is a sleep. -/
def Event.isSleep : Event → Bool
  | .sleepMs _ => true
  | _ => false

/-- The event is a panic of the running task. -/
def Event.isTaskPanic : Event → Bool
  | .taskPanic _ => true
  | _ => false

/-- The event is a log line. -/
def Event.isLog : Event → Bool
  | .log _ => true
  | _ => false

/-- The event spawns the daemon sidecar. -/
def Event.isSpawnDaemon : Event → Bool
  | .spawnDaemon _ _ => true
  | _ => false

/-- The event spawns a game executable. -/
def Event.isSpawnGame : Event → Bool
  | .spawnGame _ => true
  | _ => false

/-- The event terminates (or requests termination of) some process: a
direct kill of a game child, the forced kill of the daemon handle, or an
invocation of an external termination utility. -/
def Event.isTermination : Event → Bool
  | .killGame _ _ => true
  | .forceKillDaemon _ => true
  | .externCmd "kill" _ _ => true
  | .externCmd "taskkill" _ _ => true
  | _ => false

/-- The event is a daemon sidecar invocation (configuration or spawn). -/
def Event.isInvocation : Event → Bool
  | .sidecarInvoke _ _ _ => true
  | .spawnDaemon _ _ => true
  | _ => false

/-- The environment map carried by a sidecar invocation event. -/
def Event.envOf : Event → Option (List (String × String))
  | .sidecarInvoke _ env _ => some env
  | .spawnDaemon _ env => some env
  | _ => none

/-- Scans a trace tracking which of the two locks are held; returns true
iff some termination event happens while at least one lock is held. -/
def terminationWhileLockedAux : Bool → Bool → List Event → Bool
  | _, _, [] => false
  | g, i, e :: rest =>
    match e with
    | .lockAcquire .games => terminationWhileLockedAux true i rest
    | .lockAcquire .ipfs => terminationWhileLockedAux g true rest
    | .lockRelease .games => terminationWhileLockedAux false i rest
    | .lockRelease .ipfs => terminationWhileLockedAux g false rest
    | e => (e.isTermination && (g || i)) || terminationWhileLockedAux g i rest

/-- Some termination event of the trace occurs inside a critical
section. -/
def terminationWhileLocked (tr : List Event) : Bool :=
  terminationWhileLockedAux false false tr

/-- Scans a trace tracking which of the two locks are held; returns true
iff every game-kill happens under the games lock and every
daemon-termination step (request or forced kill) happens under the ipfs
lock. -/
def terminationsProperlyLockedAux : Bool → Bool → List Event → Bool
  | _, _, [] => true
  | g, i, e :: rest =>
    match e with
    | .lockAcquire .games => terminationsProperlyLockedAux true i rest
    | .lockAcquire .ipfs => terminationsProperlyLockedAux g true rest
    | .lockRelease .games => terminationsProperlyLockedAux false i rest
    | .lockRelease .ipfs => terminationsProperlyLockedAux g false rest
    | .killGame _ _ => g && terminationsProperlyLockedAux g i rest
    | .forceKillDaemon _ => i && terminationsProperlyLockedAux g i rest
    | .externCmd _ _ _ => i && terminationsProperlyLockedAux g i rest
    | _ => terminationsProperlyLockedAux g i rest

/-- Every termination event of the trace occurs under the lock guarding
the structure it belongs to. -/
def terminationsProperlyLocked (tr : List Event) : Bool :=
  terminationsProperlyLockedAux false false tr

/-! Helper lemmas about the game-kill loop, shared by several claims. -/

/-- The game-kill loop emits only kill and log events, so a filter whose
predicate rejects both is empty on its output. -/
theorem killGameEvents_filter_eq_nil (killErr : Nat → Option String)
    (p : Event → Bool) (h1 : ∀ pid er, p (.killGame pid er) = false)
    (h2 : ∀ m, p (.log m) = false) :
    ∀ i cs, (killGameEvents killErr i cs).filter p = [] := by
  intro i cs
  induction cs generalizing i with
  | nil => simp [killGameEvents]
  | cons c rest ih =>
    cases h : killErr i with
    | none => simp [killGameEvents, h, h1, h2, ih]
    | some e => simp [killGameEvents, h, h1, h2, ih]

/-- Scanning the game-kill loop while the games lock is held succeeds and
leaves the lock state unchanged. -/
theorem terminationsProperlyLockedAux_killGameEvents
    (killErr : Nat → Option String) (il : Bool) :
    ∀ i cs rest,
      terminationsProperlyLockedAux true il
          (killGameEvents killErr i cs ++ rest)
        = terminationsProperlyLockedAux true il rest := by
  intro i cs
  induction cs generalizing i with
  | nil => intro rest; simp [killGameEvents]
  | cons c cs ih =>
    intro rest
    cases h : killErr i with
    | none => simp [killGameEvents, h, terminationsProperlyLockedAux, ih]
    | some e => simp [killGameEvents, h, terminationsProperlyLockedAux, ih]

/-- A failing kill of the j-th tracked game process leaves its failure
log in the output of the game-kill loop. -/
theorem killGameEvents_fail_log_mem (killErr : Nat → Option String) :
    ∀ cs i j e, j < cs.length → killErr (i + j) = some e →
      Event.log ("[ProcessManager] Failed to kill game process: " ++ e)
        ∈ killGameEvents killErr i cs := by
  intro cs
  induction cs with
  | nil => intro i j e hj; simp at hj
  | cons c cs ih =>
    intro i j e hj hk
    cases j with
    | zero =>
      rw [Nat.add_zero] at hk
      simp [killGameEvents, hk]
    | succ j =>
      have hk' : killErr (i + 1 + j) = some e := by
        have harith : i + 1 + j = i + (j + 1) := by omega
        rw [harith]; exact hk
      have hmem := ih (i + 1) j e (by simpa using Nat.lt_of_succ_lt_succ hj) hk'
      cases h : killErr i <;> simp [killGameEvents, h, hmem]

/-! Claim theorems. -/

/-- Claim C9 (confirmed): two successive set_daemon calls with handles h1
then h2 leave exactly one handle in the daemon slot, namely h2; the game
list is untouched and the replacement itself issues no termination of any
kind on h1 (the first handle is merely discarded). -/
theorem set_ipfs_process_replacement (pm : ProcessManager)
    (h1 h2 : CommandChild) :
    ((pm.set_ipfs_process h1).1.set_ipfs_process h2).1.ipfs_process = some h2
    ∧ ((pm.set_ipfs_process h1).1.set_ipfs_process h2).1.game_processes
        = pm.game_processes
    ∧ ((pm.set_ipfs_process h1).2
         ++ ((pm.set_ipfs_process h1).1.set_ipfs_process h2).2).filter
         Event.isTermination = [] :=
  ⟨rfl, rfl, rfl⟩

/-- Claim C3, counterexample: with one registered game process (pid 3)
and a registered daemon (pid 9) on a Linux-configured run, the shutdown
trace performs termination calls while a registry lock is held, refuting
that the lock is released before any termination is attempted and never
held across a process-kill call. -/
theorem kill_all_lock_held_cex :
    terminationWhileLocked
      ((ProcessManager.kill_all ⟨[⟨3⟩], some ⟨9⟩⟩ .linux (fun _ => none)
          (.ran true)).2) = true := rfl

/-- Claim C3, amended (proved): the shutdown does empty the registry, but
terminations are performed inside the critical sections: every game kill
happens while the game-list lock is held and every daemon termination
step happens while the daemon-slot lock is held, for every registry
state, target and oracle outcome. -/
theorem kill_all_lock_discipline (pm : ProcessManager) (target : Target)
    (killErr : Nat → Option String) (out : CmdOutcome) :
    terminationsProperlyLocked ((pm.kill_all target killErr out).2) = true
    ∧ (pm.kill_all target killErr out).1 = ProcessManager.new := by
  obtain ⟨gs, d⟩ := pm
  refine ⟨?_, rfl⟩
  have haux := terminationsProperlyLockedAux_killGameEvents killErr
  cases hb : target.isPosix <;> cases d <;> rcases out with e | b <;>
    try cases b
  all_goals
    simp [ProcessManager.kill_all, hb, terminationsProperlyLocked,
      terminationsProperlyLockedAux, haux]

/-- The events of a shutdown run that precede the platform-specific
daemon termination request, for a registry holding game list gs and a
daemon with the given pid: the whole game critical section followed by
the opening of the daemon critical section. -/
def shutdownPrefixEvents (gs : List Child) (killErr : Nat → Option String)
    (pid : Nat) : List Event :=
  [.lockAcquire .games,
   .log ("[ProcessManager] Killing " ++ toString gs.length
     ++ " game processes")] ++
  killGameEvents killErr 0 gs ++
  [.clearGames, .lockRelease .games, .lockAcquire .ipfs,
   .log "[ProcessManager] Shutting down IPFS daemon",
   .log ("[ProcessManager] IPFS daemon PID: " ++ toString pid)]

/-- Claim C4 (confirmed): on a POSIX-configured run with a registered
daemon handle of pid P, shutdown issues exactly one graceful-termination
request (the external kill utility with the terminate signal) and it
references exactly P, and a direct forced termination of that same handle
follows it, whatever the graceful request reported (success, failure, or
failure to execute) and whatever the game list and game-kill outcomes
were. -/
theorem kill_all_posix_daemon_termination (gs : List Child)
    (c : CommandChild) (killErr : Nat → Option String) (target : Target)
    (out : CmdOutcome) (hp : target.isPosix = true) :
    ((ProcessManager.kill_all ⟨gs, some c⟩ target killErr out).2.filter
        Event.isGracefulReq
      = [.externCmd "kill" ["-TERM", toString c.pid] out])
    ∧ ∃ pre post,
        (ProcessManager.kill_all ⟨gs, some c⟩ target killErr out).2
          = pre ++ Event.externCmd "kill" ["-TERM", toString c.pid] out :: post
        ∧ pre.filter Event.isForceKill = []
        ∧ post.filter Event.isForceKill = [.forceKillDaemon c.pid] := by
  have hg : (killGameEvents killErr 0 gs).filter Event.isGracefulReq = [] :=
    killGameEvents_filter_eq_nil killErr Event.isGracefulReq
      (fun _ _ => rfl) (fun _ => rfl) 0 gs
  have hfk : (killGameEvents killErr 0 gs).filter Event.isForceKill = [] :=
    killGameEvents_filter_eq_nil killErr Event.isForceKill
      (fun _ _ => rfl) (fun _ => rfl) 0 gs
  rcases out with e | b
  · refine ⟨?_, shutdownPrefixEvents gs killErr c.pid,
      [.log ("[ProcessManager] Failed to execute kill command: " ++ e),
       .forceKillDaemon c.pid,
       .log "[ProcessManager] IPFS daemon cleanup completed",
       .lockRelease .ipfs], ?_, ?_, ?_⟩ <;>
      simp [ProcessManager.kill_all, hp, shutdownPrefixEvents, hg, hfk,
        Event.isGracefulReq, Event.isForceKill]
  · cases b
    · refine ⟨?_, shutdownPrefixEvents gs killErr c.pid,
        [.log "[ProcessManager] Failed to send SIGTERM",
         .forceKillDaemon c.pid,
         .log "[ProcessManager] IPFS daemon cleanup completed",
         .lockRelease .ipfs], ?_, ?_, ?_⟩ <;>
        simp [ProcessManager.kill_all, hp, shutdownPrefixEvents, hg, hfk,
          Event.isGracefulReq, Event.isForceKill]
    · refine ⟨?_, shutdownPrefixEvents gs killErr c.pid,
        [.log "[ProcessManager] Sent SIGTERM to IPFS daemon",
         .forceKillDaemon c.pid,
         .log "[ProcessManager] IPFS daemon cleanup completed",
         .lockRelease .ipfs], ?_, ?_, ?_⟩ <;>
        simp [ProcessManager.kill_all, hp, shutdownPrefixEvents, hg, hfk,
          Event.isGracefulReq, Event.isForceKill]

/-- Claim C4, witness at a concrete registry and oracle (empty game list,
daemon pid 9, Linux target, graceful request reporting failure). -/
theorem kill_all_posix_daemon_termination_witness :
    ((ProcessManager.kill_all ⟨[], some ⟨9⟩⟩ Target.linux (fun _ => none)
        (CmdOutcome.ran false)).2.filter Event.isGracefulReq
      = [.externCmd "kill" ["-TERM", toString (9 : Nat)]
           (CmdOutcome.ran false)])
    ∧ ∃ pre post,
        (ProcessManager.kill_all ⟨[], some ⟨9⟩⟩ Target.linux (fun _ => none)
            (CmdOutcome.ran false)).2
          = pre ++ Event.externCmd "kill" ["-TERM", toString (9 : Nat)]
              (CmdOutcome.ran false) :: post
        ∧ pre.filter Event.isForceKill = []
        ∧ post.filter Event.isForceKill = [.forceKillDaemon 9] :=
  kill_all_posix_daemon_termination [] ⟨9⟩ (fun _ => none) Target.linux
    (CmdOutcome.ran false) rfl

/-- Claim C5, counterexample: on a Windows-configured run with daemon pid
7 whose tree-kill request reports failure, the shutdown trace contains no
wait at all, yet still issues the forced termination — refuting that the
coordinator waits before the forced-termination fallback in every case
including a failed tree-kill request. -/
theorem kill_all_windows_no_wait_cex :
    ((ProcessManager.kill_all ⟨[], some ⟨7⟩⟩ Target.windows (fun _ => none)
        (CmdOutcome.ran false)).2.any Event.isSleep = false)
    ∧ ((ProcessManager.kill_all ⟨[], some ⟨7⟩⟩ Target.windows (fun _ => none)
        (CmdOutcome.ran false)).2.any Event.isForceKill = true) :=
  ⟨rfl, rfl⟩

/-- Claim C5, amended (proved): on a Windows-configured run with a
registered daemon of pid P, shutdown issues exactly one tree-kill request
referencing P and exactly one forced termination of the handle; the brief
fixed pause happens between the request and the forced termination when
and only when the tree-kill request reports success — when it reports
failure or cannot execute, the forced termination follows with no wait. -/
theorem kill_all_windows_daemon_termination (gs : List Child)
    (c : CommandChild) (killErr : Nat → Option String) (out : CmdOutcome) :
    ((ProcessManager.kill_all ⟨gs, some c⟩ .windows killErr out).2.filter
        Event.isTreeKillReq
      = [.externCmd "taskkill" ["/PID", toString c.pid, "/T"] out])
    ∧ ((ProcessManager.kill_all ⟨gs, some c⟩ .windows killErr out).2.filter
        Event.isForceKill = [.forceKillDaemon c.pid])
    ∧ (out = .ran true → ∃ pre post,
        (ProcessManager.kill_all ⟨gs, some c⟩ .windows killErr out).2
          = pre ++ Event.sleepMs 500 :: post
        ∧ pre.filter Event.isTreeKillReq
            = [.externCmd "taskkill" ["/PID", toString c.pid, "/T"] out]
        ∧ post.filter Event.isForceKill = [.forceKillDaemon c.pid])
    ∧ (out ≠ .ran true →
        (ProcessManager.kill_all ⟨gs, some c⟩ .windows killErr out).2.filter
          Event.isSleep = []) := by
  have ht : (killGameEvents killErr 0 gs).filter Event.isTreeKillReq = [] :=
    killGameEvents_filter_eq_nil killErr Event.isTreeKillReq
      (fun _ _ => rfl) (fun _ => rfl) 0 gs
  have hfk : (killGameEvents killErr 0 gs).filter Event.isForceKill = [] :=
    killGameEvents_filter_eq_nil killErr Event.isForceKill
      (fun _ _ => rfl) (fun _ => rfl) 0 gs
  have hs : (killGameEvents killErr 0 gs).filter Event.isSleep = [] :=
    killGameEvents_filter_eq_nil killErr Event.isSleep
      (fun _ _ => rfl) (fun _ => rfl) 0 gs
  rcases out with e | b
  · refine ⟨?_, ?_, ?_, ?_⟩
    · simp [ProcessManager.kill_all, Target.isPosix, ht, Event.isTreeKillReq]
    · simp [ProcessManager.kill_all, Target.isPosix, hfk, Event.isForceKill]
    · intro h; simp at h
    · intro _
      simp [ProcessManager.kill_all, Target.isPosix, hs, Event.isSleep]
  · cases b
    · refine ⟨?_, ?_, ?_, ?_⟩
      · simp [ProcessManager.kill_all, Target.isPosix, ht, Event.isTreeKillReq]
      · simp [ProcessManager.kill_all, Target.isPosix, hfk, Event.isForceKill]
      · intro h; simp at h
      · intro _
        simp [ProcessManager.kill_all, Target.isPosix, hs, Event.isSleep]
    · refine ⟨?_, ?_, ?_, ?_⟩
      · simp [ProcessManager.kill_all, Target.isPosix, ht, Event.isTreeKillReq]
      · simp [ProcessManager.kill_all, Target.isPosix, hfk, Event.isForceKill]
      · intro _
        refine ⟨shutdownPrefixEvents gs killErr c.pid ++
            [.externCmd "taskkill" ["/PID", toString c.pid, "/T"] (.ran true),
             .log "[ProcessManager] Sent taskkill to IPFS daemon"],
          [.forceKillDaemon c.pid,
           .log "[ProcessManager] IPFS daemon cleanup completed",
           .lockRelease .ipfs], ?_, ?_, ?_⟩
        · simp [ProcessManager.kill_all, Target.isPosix, shutdownPrefixEvents]
        · simp [shutdownPrefixEvents, ht, Event.isTreeKillReq]
        · simp [Event.isForceKill]
      · intro h; exact absurd rfl h

/-- Claim C5, witness at a concrete registry and oracle (empty game list,
daemon pid 7, tree-kill request reporting success): the pause does occur
between the tree-kill request and the forced termination. -/
theorem kill_all_windows_daemon_termination_witness :
    ∃ pre post,
      (ProcessManager.kill_all ⟨[], some ⟨7⟩⟩ Target.windows (fun _ => none)
          (CmdOutcome.ran true)).2
        = pre ++ Event.sleepMs 500 :: post
      ∧ pre.filter Event.isTreeKillReq
          = [.externCmd "taskkill" ["/PID", toString (7 : Nat), "/T"]
               (CmdOutcome.ran true)]
      ∧ post.filter Event.isForceKill = [.forceKillDaemon 7] :=
  (kill_all_windows_daemon_termination [] ⟨7⟩ (fun _ => none)
    (CmdOutcome.ran true)).2.2.1 rfl

/-- Claim C7 (confirmed): on a POSIX-configured run, when the
permission-fix-up utility fails to execute, the launch returns the
permission error, the registry (and in particular its game-process
count) is unchanged, and no spawn of the target executable is attempted. -/
theorem execute_game_chmod_exec_failure (target : Target) (path e : String)
    (spawnRes : Except String Nat) (pm : ProcessManager)
    (hp : target.isPosix = true) :
    (execute_game target path (.execFailed e) spawnRes pm).1
      = .error ("Failed to set executable permission: " ++ e)
    ∧ (execute_game target path (.execFailed e) spawnRes pm).2.1 = pm
    ∧ (execute_game target path (.execFailed e) spawnRes pm).2.2.filter
        Event.isSpawnGame = [] := by
  cases target with
  | windows => simp [Target.isPosix] at hp
  | macos => exact ⟨rfl, rfl, rfl⟩
  | linux => exact ⟨rfl, rfl, rfl⟩

/-- Claim C7, witness: a Linux launch whose chmod cannot execute. -/
theorem execute_game_chmod_exec_failure_witness :
    (execute_game Target.linux "/tmp/game" (.execFailed "No such file")
        (Except.ok 1) ProcessManager.new).1
      = .error ("Failed to set executable permission: " ++ "No such file")
    ∧ (execute_game Target.linux "/tmp/game" (.execFailed "No such file")
        (Except.ok 1) ProcessManager.new).2.1 = ProcessManager.new
    ∧ (execute_game Target.linux "/tmp/game" (.execFailed "No such file")
        (Except.ok 1) ProcessManager.new).2.2.filter
        Event.isSpawnGame = [] :=
  execute_game_chmod_exec_failure Target.linux "/tmp/game" "No such file"
    (Except.ok 1) ProcessManager.new rfl

/-- Claim C10 (confirmed): on a POSIX-configured run the exit status of
the permission-change utility is ignored — when chmod executes but
reports non-success (or success alike), the spawn of the target is still
attempted, succeeding or failing solely according to the spawn outcome;
only a failure to execute the utility itself aborts the launch (claim
C7's case). -/
theorem execute_game_chmod_status_ignored (target : Target) (path : String)
    (b : Bool) (spawnRes : Except String Nat) (pm : ProcessManager)
    (hp : target.isPosix = true) :
    ((execute_game target path (.ran b) spawnRes pm).2.2.filter
       Event.isSpawnGame = [.spawnGame path])
    ∧ (∀ p, spawnRes = .ok p →
        (execute_game target path (.ran b) spawnRes pm).1
          = .ok ("Game launched: " ++ path))
    ∧ (∀ m, spawnRes = .error m →
        (execute_game target path (.ran b) spawnRes pm).1
          = .error ("Failed to execute game: " ++ m)) := by
  cases target with
  | windows => simp [Target.isPosix] at hp
  | macos =>
    cases spawnRes <;>
      simp [execute_game, ProcessManager.add_game_process, Event.isSpawnGame]
  | linux =>
    cases spawnRes <;>
      simp [execute_game, ProcessManager.add_game_process, Event.isSpawnGame]

/-- Claim C10, witness: a Linux launch whose chmod ran with a
non-success exit status still spawns the game and succeeds. -/
theorem execute_game_chmod_status_ignored_witness :
    ((execute_game Target.linux "/missing/game" (.ran false) (Except.ok 5)
        ProcessManager.new).2.2.filter
       Event.isSpawnGame = [.spawnGame "/missing/game"])
    ∧ (∀ p, (Except.ok 5 : Except String Nat) = .ok p →
        (execute_game Target.linux "/missing/game" (.ran false)
            (Except.ok 5) ProcessManager.new).1
          = .ok ("Game launched: " ++ "/missing/game"))
    ∧ (∀ m, (Except.ok 5 : Except String Nat) = .error m →
        (execute_game Target.linux "/missing/game" (.ran false)
            (Except.ok 5) ProcessManager.new).1
          = .error ("Failed to execute game: " ++ m)) :=
  execute_game_chmod_status_ignored Target.linux "/missing/game" false
    (Except.ok 5) ProcessManager.new rfl

/-- Claim C8 (confirmed): every successful launch appends exactly one new
handle to the tracked game list (so the count grows by exactly one), and
there is no deduplication: two successful launches of the same path
append two independently tracked handles. -/
theorem execute_game_registration :
    (∀ (target : Target) (path : String) (chmodRes : CmdOutcome)
        (spawnRes : Except String Nat) (pm : ProcessManager) (s : String),
        (execute_game target path chmodRes spawnRes pm).1 = .ok s →
        ∃ p, spawnRes = .ok p ∧
          (execute_game target path chmodRes spawnRes pm).2.1.game_processes
            = pm.game_processes ++ [⟨p⟩])
    ∧ (∀ (target : Target) (path : String) (b1 b2 : Bool) (p1 p2 : Nat)
        (pm : ProcessManager),
        (execute_game target path (.ran b2) (.ok p2)
            (execute_game target path (.ran b1) (.ok p1)
              pm).2.1).2.1.game_processes
          = pm.game_processes ++ [⟨p1⟩, ⟨p2⟩]) := by
  constructor
  · intro target path chmodRes spawnRes pm s h
    cases target <;> rcases chmodRes with e | b <;>
      rcases spawnRes with m | p <;>
        simp [execute_game, ProcessManager.add_game_process] at h ⊢
  · intro target path b1 b2 p1 p2 pm
    cases target <;>
      simp [execute_game, ProcessManager.add_game_process]

/-- Claim C8, witness: one successful Linux launch of /tmp/game on a
fresh registry registers exactly the new handle. -/
theorem execute_game_registration_witness :
    ∃ p, (Except.ok 5 : Except String Nat) = .ok p ∧
      (execute_game Target.linux "/tmp/game" (.ran true) (Except.ok 5)
          ProcessManager.new).2.1.game_processes
        = ProcessManager.new.game_processes ++ [⟨p⟩] :=
  execute_game_registration.1 Target.linux "/tmp/game" (.ran true)
    (Except.ok 5) ProcessManager.new "Game launched: /tmp/game" rfl

/-- Claim C6 (confirmed): in every execution of the daemon bootstrap the
sidecar invocations that occur form a prefix of the fixed sequence
(allowed origins, then allowed methods, then the daemon spawn), so the
two configuration sub-invocations come in that order and strictly before
the spawn; whenever the spawn is issued, all three invocations occurred
in exactly that order; and every invocation carries the environment map
binding IPFS_PATH to the same data-directory value. -/
theorem bootstrap_invocation_order (dataDir : String)
    (cfg : Nat → CmdOutcome) (spawnRes : Except String Nat)
    (pm : ProcessManager) :
    (∃ rest,
        (bootstrap dataDir cfg spawnRes pm).2.filter Event.isInvocation ++ rest
          = [.sidecarInvoke corsOriginArgs [("IPFS_PATH", dataDir)] (cfg 0),
             .sidecarInvoke corsMethodArgs [("IPFS_PATH", dataDir)] (cfg 1),
             .spawnDaemon ["daemon", "--init"] [("IPFS_PATH", dataDir)]])
    ∧ ((bootstrap dataDir cfg spawnRes pm).2.any Event.isSpawnDaemon = true →
        (bootstrap dataDir cfg spawnRes pm).2.filter Event.isInvocation
          = [.sidecarInvoke corsOriginArgs [("IPFS_PATH", dataDir)] (cfg 0),
             .sidecarInvoke corsMethodArgs [("IPFS_PATH", dataDir)] (cfg 1),
             .spawnDaemon ["daemon", "--init"] [("IPFS_PATH", dataDir)]])
    ∧ (∀ ev ∈ (bootstrap dataDir cfg spawnRes pm).2,
        ev.isInvocation = true → ev.envOf = some [("IPFS_PATH", dataDir)]) := by
  rcases h0 : cfg 0 with e0 | b0
  · rcases spawnRes with m | p <;>
      refine ⟨⟨[.sidecarInvoke corsMethodArgs [("IPFS_PATH", dataDir)] (cfg 1),
                .spawnDaemon ["daemon", "--init"] [("IPFS_PATH", dataDir)]],
          ?_⟩, ?_, ?_⟩ <;>
        simp [bootstrap, runConfigsAux, cors_commands, h0,
          ProcessManager.set_ipfs_process, Event.isInvocation,
          Event.isSpawnDaemon, Event.envOf]
  · rcases h1 : cfg 1 with e1 | b1
    · rcases spawnRes with m | p <;>
        refine ⟨⟨[.spawnDaemon ["daemon", "--init"] [("IPFS_PATH", dataDir)]],
            ?_⟩, ?_, ?_⟩ <;>
          simp [bootstrap, runConfigsAux, cors_commands, h0, h1,
            ProcessManager.set_ipfs_process, Event.isInvocation,
            Event.isSpawnDaemon, Event.envOf]
    · rcases spawnRes with m | p <;>
        refine ⟨⟨([] : List Event), ?_⟩, ?_, ?_⟩ <;>
          simp [bootstrap, runConfigsAux, cors_commands, h0, h1,
            ProcessManager.set_ipfs_process, Event.isInvocation,
            Event.isSpawnDaemon, Event.envOf]

/-- Claim C6, witness: a fully successful bootstrap issues exactly the
three invocations in the fixed order, all with the same IPFS_PATH
environment. -/
theorem bootstrap_invocation_order_witness :
    (bootstrap "/data/.ipfs" (fun _ => CmdOutcome.ran true) (Except.ok 11)
        ProcessManager.new).2.filter Event.isInvocation
      = [.sidecarInvoke corsOriginArgs [("IPFS_PATH", "/data/.ipfs")]
           (CmdOutcome.ran true),
         .sidecarInvoke corsMethodArgs [("IPFS_PATH", "/data/.ipfs")]
           (CmdOutcome.ran true),
         .spawnDaemon ["daemon", "--init"] [("IPFS_PATH", "/data/.ipfs")]] :=
  (bootstrap_invocation_order "/data/.ipfs" (fun _ => CmdOutcome.ran true)
    (Except.ok 11) ProcessManager.new).2.1 rfl

/-- Claim C1, counterexample: when the first configuration sub-invocation
fails to execute, the bootstrap neither logs the failure nor continues —
the task panics on the unwrap and the daemon spawn is never attempted,
refuting that a configuration failure is logged and non-fatal to the
bootstrap. -/
theorem bootstrap_config_fail_cex :
    ((bootstrap "/home/user/.local/share/gamex/.ipfs"
        (fun _ => CmdOutcome.execFailed "exec format error") (Except.ok 42)
        ProcessManager.new).2.any Event.isSpawnDaemon = false)
    ∧ ((bootstrap "/home/user/.local/share/gamex/.ipfs"
        (fun _ => CmdOutcome.execFailed "exec format error") (Except.ok 42)
        ProcessManager.new).2.any Event.isLog = false)
    ∧ ((bootstrap "/home/user/.local/share/gamex/.ipfs"
        (fun _ => CmdOutcome.execFailed "exec format error") (Except.ok 42)
        ProcessManager.new).2.any Event.isTaskPanic = true) :=
  ⟨rfl, rfl, rfl⟩

/-- Claim C1, amended (proved): a configuration sub-invocation that runs
but reports a non-success exit status is ignored entirely and the
bootstrap continues to the daemon spawn; a configuration sub-invocation
that fails to execute is fatal to the bootstrap task — the task panics,
the daemon spawn is not attempted and the registry is left untouched
(only the enclosing application survives, the bootstrap does not). -/
theorem bootstrap_config_failure_behavior (dataDir : String)
    (cfg : Nat → CmdOutcome) (spawnRes : Except String Nat)
    (pm : ProcessManager) :
    (∀ b0 b1, cfg 0 = .ran b0 → cfg 1 = .ran b1 →
        (bootstrap dataDir cfg spawnRes pm).2.any Event.isSpawnDaemon = true)
    ∧ (∀ e, cfg 0 = .execFailed e →
        (bootstrap dataDir cfg spawnRes pm).2.any Event.isSpawnDaemon = false
        ∧ (bootstrap dataDir cfg spawnRes pm).2.any Event.isTaskPanic = true
        ∧ (bootstrap dataDir cfg spawnRes pm).1 = pm)
    ∧ (∀ b0 e, cfg 0 = .ran b0 → cfg 1 = .execFailed e →
        (bootstrap dataDir cfg spawnRes pm).2.any Event.isSpawnDaemon = false
        ∧ (bootstrap dataDir cfg spawnRes pm).2.any Event.isTaskPanic = true
        ∧ (bootstrap dataDir cfg spawnRes pm).1 = pm) := by
  refine ⟨?_, ?_, ?_⟩
  · intro b0 b1 h0 h1
    rcases spawnRes with m | p <;>
      simp [bootstrap, runConfigsAux, cors_commands, h0, h1,
        ProcessManager.set_ipfs_process, Event.isSpawnDaemon]
  · intro e h0
    refine ⟨?_, ?_, ?_⟩ <;>
      simp [bootstrap, runConfigsAux, cors_commands, h0,
        Event.isSpawnDaemon, Event.isTaskPanic]
  · intro b0 e h0 h1
    refine ⟨?_, ?_, ?_⟩ <;>
      simp [bootstrap, runConfigsAux, cors_commands, h0, h1,
        Event.isSpawnDaemon, Event.isTaskPanic]

/-- Claim C1, witness: with both configuration sub-invocations unable to
execute, the bootstrap panics without spawning the daemon and leaves the
registry untouched. -/
theorem bootstrap_config_failure_behavior_witness :
    (bootstrap "/srv/ipfs" (fun _ => CmdOutcome.execFailed "EACCES")
        (Except.ok 3) ProcessManager.new).2.any Event.isSpawnDaemon = false
    ∧ (bootstrap "/srv/ipfs" (fun _ => CmdOutcome.execFailed "EACCES")
        (Except.ok 3) ProcessManager.new).2.any Event.isTaskPanic = true
    ∧ (bootstrap "/srv/ipfs" (fun _ => CmdOutcome.execFailed "EACCES")
        (Except.ok 3) ProcessManager.new).1 = ProcessManager.new :=
  (bootstrap_config_failure_behavior "/srv/ipfs"
    (fun _ => CmdOutcome.execFailed "EACCES") (Except.ok 3)
    ProcessManager.new).2.1 "EACCES" rfl

/-- Claim C2, counterexample: a configuration sub-invocation that fails
to execute makes the bootstrap task panic without any message being
logged or any error value being produced, refuting that no operation of
the subsystem panics on the failures of the error taxonomy. -/
theorem failure_surfacing_cex :
    ((bootstrap "/var/lib/gamex/.ipfs" (fun _ => CmdOutcome.execFailed "ENOENT")
        (Except.ok 8) ProcessManager.new).2.filter Event.isLog = [])
    ∧ ((bootstrap "/var/lib/gamex/.ipfs" (fun _ => CmdOutcome.execFailed "ENOENT")
        (Except.ok 8) ProcessManager.new).2.any Event.isTaskPanic = true) :=
  ⟨rfl, rfl⟩

/-- Claim C2, amended (proved): of the failures in the error taxonomy,
all but one neither panic nor abort: launch failures (permission fix-up
and spawn) are surfaced as error strings with no panic event, kill
failures and the daemon spawn failure are surfaced as log lines with no
panic event; the exception is a configuration sub-invocation that fails
to execute, which panics the bootstrap task instead of being surfaced. -/
theorem failure_surfacing :
    (∀ (target : Target) (path : String) (chmodRes : CmdOutcome)
        (spawnRes : Except String Nat) (pm : ProcessManager),
        (execute_game target path chmodRes spawnRes pm).2.2.filter
          Event.isTaskPanic = [])
    ∧ (∀ (pm : ProcessManager) (target : Target)
        (killErr : Nat → Option String) (out : CmdOutcome),
        (pm.kill_all target killErr out).2.filter Event.isTaskPanic = [])
    ∧ (∀ (target : Target) (path e : String) (spawnRes : Except String Nat)
        (pm : ProcessManager), target.isPosix = true →
        (execute_game target path (.execFailed e) spawnRes pm).1
          = .error ("Failed to set executable permission: " ++ e))
    ∧ (∀ (target : Target) (path m : String) (pm : ProcessManager)
        (chmodRes : CmdOutcome) (b : Bool),
        (chmodRes = .ran b ∨ target = .windows) →
        (execute_game target path chmodRes (.error m) pm).1
          = .error ("Failed to execute game: " ++ m))
    ∧ (∀ (dataDir : String) (cfg : Nat → CmdOutcome) (pm : ProcessManager)
        (m : String) (b0 b1 : Bool), cfg 0 = .ran b0 → cfg 1 = .ran b1 →
        Event.log ("[Tauri] Failed to spawn IPFS daemon: " ++ m)
          ∈ (bootstrap dataDir cfg (.error m) pm).2
        ∧ (bootstrap dataDir cfg (.error m) pm).2.filter
            Event.isTaskPanic = [])
    ∧ (∀ (gs : List Child) (d : Option CommandChild) (target : Target)
        (killErr : Nat → Option String) (out : CmdOutcome) (j : Nat)
        (e : String), j < gs.length → killErr j = some e →
        Event.log ("[ProcessManager] Failed to kill game process: " ++ e)
          ∈ (ProcessManager.kill_all ⟨gs, d⟩ target killErr out).2)
    ∧ (∀ (gs : List Child) (c : CommandChild)
        (killErr : Nat → Option String) (target : Target),
        target.isPosix = true →
        Event.log "[ProcessManager] Failed to send SIGTERM"
          ∈ (ProcessManager.kill_all ⟨gs, some c⟩ target killErr
              (.ran false)).2)
    ∧ (∀ (dataDir : String) (cfg : Nat → CmdOutcome)
        (spawnRes : Except String Nat) (pm : ProcessManager) (e : String),
        cfg 0 = .execFailed e →
        (bootstrap dataDir cfg spawnRes pm).2.any Event.isTaskPanic
          = true) := by
  have hnp : ∀ (killErr : Nat → Option String) (i : Nat) (cs : List Child),
      (killGameEvents killErr i cs).filter Event.isTaskPanic = [] :=
    fun killErr i cs => killGameEvents_filter_eq_nil killErr Event.isTaskPanic
      (fun _ _ => rfl) (fun _ => rfl) i cs
  refine ⟨?_, ?_, ?_, ?_, ?_, ?_, ?_, ?_⟩
  · intro target path chmodRes spawnRes pm
    cases target <;> rcases chmodRes with e | b <;>
      rcases spawnRes with m | p <;>
        simp [execute_game, ProcessManager.add_game_process, Event.isTaskPanic]
  · intro pm target killErr out
    obtain ⟨gs, d⟩ := pm
    cases hb : target.isPosix <;> cases d <;> rcases out with e | b <;>
      try cases b
    all_goals
      simp [ProcessManager.kill_all, hb, hnp, Event.isTaskPanic]
  · intro target path e spawnRes pm hp
    cases target with
    | windows => simp [Target.isPosix] at hp
    | macos => rfl
    | linux => rfl
  · intro target path m pm chmodRes b hdisj
    rcases hdisj with hc | ht
    · subst hc; cases target <;> rfl
    · subst ht; rcases chmodRes with e | b2 <;> rfl
  · intro dataDir cfg pm m b0 b1 h0 h1
    constructor <;>
      simp [bootstrap, runConfigsAux, cors_commands, h0, h1, Event.isTaskPanic]
  · intro gs d target killErr out j e hj hk
    have hmem := killGameEvents_fail_log_mem killErr gs 0 j e hj
      (by simpa using hk)
    simp [ProcessManager.kill_all, List.mem_append]
    tauto
  · intro gs c killErr target hp
    simp [ProcessManager.kill_all, hp]
  · intro dataDir cfg spawnRes pm e h0
    simp [bootstrap, runConfigsAux, cors_commands, h0, Event.isTaskPanic]

/-- Claim C2, witness: a daemon spawn failure is surfaced as a log line
and the bootstrap trace contains no panic. -/
theorem failure_surfacing_witness :
    Event.log ("[Tauri] Failed to spawn IPFS daemon: " ++ "EPERM")
      ∈ (bootstrap "/opt/gamex/.ipfs" (fun _ => CmdOutcome.ran true)
          (Except.error "EPERM") ProcessManager.new).2
    ∧ (bootstrap "/opt/gamex/.ipfs" (fun _ => CmdOutcome.ran true)
        (Except.error "EPERM") ProcessManager.new).2.filter
        Event.isTaskPanic = [] :=
  failure_surfacing.2.2.2.2.1 "/opt/gamex/.ipfs"
    (fun _ => CmdOutcome.ran true) ProcessManager.new "EPERM" true true
    rfl rfl

end Gamex
